import Mathlib

/-!
# Verification of the CRUD server corpus

Shallow embedding of the route handlers of the repository
(`src/fastify/05/src/routes.ts`, `src/express/01/src/routes/taskRoutes.ts`,
`src/express/01/src/routes/conexao_mysql.ts`, `src/unnamed/part_002`,
`src/03/src/server.ts`) together with proofs of the claimed contract
properties.  Mutable JS arrays become explicit state passing (`List` in,
`List` out); HTTP replies become a `Resp` value; JS truthiness of optional
string fields is modelled explicitly.
-/

section ListHelpers

variable {α : Type _}

/-- The function `findIndex` either fails on every element or splits the list at the
first hit, returning the length of the prefix before it. -/
theorem findIdx?_decomp (p : α → Bool) (s : List α) :
    (List.findIdx? p s = none ∧ ∀ x ∈ s, p x = false) ∨
    ∃ pre a post, s = pre ++ a :: post ∧ p a = true ∧
      (∀ b ∈ pre, p b = false) ∧ List.findIdx? p s = some pre.length := by
  induction s with
  | nil => left; simp
  | cons x xs ih =>
    by_cases hx : p x = true
    · right
      exact ⟨[], x, xs, rfl, hx, by simp, by simp [List.findIdx?_cons, hx]⟩
    · rcases ih with ⟨hnone, hall⟩ | ⟨pre, a, post, hs, hpa, hpre, hidx⟩
      · left
        refine ⟨?_, ?_⟩
        · simp [List.findIdx?_cons, hx, List.findIdx?_succ, hnone]
        · intro y hy
          rcases List.mem_cons.mp hy with rfl | hy
          · exact eq_false_of_ne_true hx
          · exact hall y hy
      · right
        refine ⟨x :: pre, a, post, by simp [hs], hpa, ?_, ?_⟩
        · intro b hb
          rcases List.mem_cons.mp hb with rfl | hb
          · exact eq_false_of_ne_true hx
          · exact hpre b hb
        · simp [List.findIdx?_cons, hx, List.findIdx?_succ, hidx]

/-- Indexing `pre ++ a :: post` at `pre.length` yields `a`. -/
theorem getD_append_middle (pre : List α) (a : α) (post : List α) (d : α) :
    (pre ++ a :: post).getD pre.length d = a := by
  rw [List.getD_eq_getElem?_getD, List.getElem?_append_right (le_refl _)]
  simp

/-- Assigning index `pre.length` of `pre ++ a :: post` replaces `a`. -/
theorem set_append_middle (pre : List α) (a v : α) (post : List α) :
    (pre ++ a :: post).set pre.length v = pre ++ v :: post := by
  rw [List.set_append, if_neg (lt_irrefl _)]
  simp

/-- A `splice(pre.length, 1)` on `pre ++ a :: post` removes exactly `a`. -/
theorem eraseIdx_append_middle (pre : List α) (a : α) (post : List α) :
    (pre ++ a :: post).eraseIdx pre.length = pre ++ post := by
  induction pre with
  | nil => rfl
  | cons x xs ih => simpa [List.eraseIdx] using ih

/-- A `find` over `pre ++ a :: post` returns `a` when the prefix has no hit
and `a` matches. -/
theorem find?_append_middle (p : α → Bool) (pre : List α) (a : α) (post : List α)
    (hpre : ∀ b ∈ pre, p b = false) (ha : p a = true) :
    List.find? p (pre ++ a :: post) = some a := by
  rw [List.find?_append, List.find?_eq_none.mpr, Option.none_or]
  · simp [List.find?_cons, ha]
  · intro x hx
    simp [hpre x hx]

/-- A `foldl max` over `Nat` is either the seed or attained by an element. -/
theorem foldl_max_attained (l : List Nat) (a : Nat) :
    l.foldl Nat.max a = a ∨ l.foldl Nat.max a ∈ l := by
  induction l generalizing a with
  | nil => left; rfl
  | cons x xs ih =>
    rcases ih (Nat.max a x) with h | h
    · rcases Nat.le_total a x with hle | hle
      · right; simp only [List.foldl_cons]
        have hm : Nat.max a x = x := Nat.max_eq_right hle
        rw [h, hm]; exact List.mem_cons_self x xs
      · left
        have hm : Nat.max a x = a := Nat.max_eq_left hle
        simpa [List.foldl_cons, hm] using h
    · right; exact List.mem_cons_of_mem x h

/-- Every element (and the seed) is bounded by `foldl max`. -/
theorem le_foldl_max (l : List Nat) (a : Nat) :
    a ≤ l.foldl Nat.max a ∧ ∀ x ∈ l, x ≤ l.foldl Nat.max a := by
  induction l generalizing a with
  | nil => exact ⟨le_refl a, by simp⟩
  | cons y ys ih =>
    obtain ⟨hseed, hmem⟩ := ih (Nat.max a y)
    refine ⟨le_trans (Nat.le_max_left a y) hseed, ?_⟩
    intro x hx
    rcases List.mem_cons.mp hx with rfl | hx
    · exact le_trans (Nat.le_max_right a x) hseed
    · exact hmem x hx

end ListHelpers

namespace Fastify05

/-- A record of `usuariosMock` in `src/fastify/05/src/routes.ts`:
`{ id: number, nome: string, email: string }`.  Ids in this file are
produced by `parseInt` of a `^[0-9]+$` route parameter or by `getNextId`,
so they are natural numbers. -/
structure Usuario where
  id : Nat
  nome : String
  email : String
deriving Repr, DecidableEq

/-- Response bodies produced by the handlers in `routes.ts`. -/
inductive Body where
  /-- a single user object -/
  | user (u : Usuario)
  /-- the `errorSchema` shape `{ error, message }` -/
  | err (error message : String)
  /-- the DELETE success shape `{ message, id }` -/
  | deleted (message : String) (id : Nat)
  /-- the list shape `{ usuarios, total }` -/
  | list (usuarios : List Usuario) (total : Nat)
deriving Repr, DecidableEq

/-- An HTTP reply: status code plus JSON body. -/
structure Resp where
  status : Nat
  body : Body
deriving Repr, DecidableEq

/-- The initial `usuariosMock` array. -/
def usuariosMock : List Usuario :=
  [ ⟨1, "João Silva", "joao@teste.com"⟩,
    ⟨2, "Maria Santos", "maria@teste.com"⟩,
    ⟨3, "Pedro Oliveira", "pedro@exemplo.com"⟩,
    ⟨4, "Ana Costa", "ana@exemplo.com"⟩,
    ⟨5, "Carlos Eduardo", "carlos@teste.com"⟩,
    ⟨6, "Fernanda Lima", "fernanda@exemplo.com"⟩,
    ⟨7, "Roberto Alves", "roberto@teste.com"⟩,
    ⟨8, "Juliana Ferreira", "juliana@exemplo.com"⟩,
    ⟨9, "Marcos Pereira", "marcos@teste.com"⟩,
    ⟨10, "Carla Rodrigues", "carla@exemplo.com"⟩ ]

/-- The function `getNextId`:
`usuariosMock.length > 0 ? Math.max(...usuariosMock.map(u => u.id)) + 1 : 1`.
Over `Nat`, `foldl max 0` of a non-empty list is exactly `Math.max` of its
elements. -/
def getNextId (usuarios : List Usuario) : Nat :=
  if usuarios.length > 0 then (usuarios.map (·.id)).foldl Nat.max 0 + 1 else 1

/-- The 404 body shared by the by-id handlers:
`{ error: 'Not Found', message: 'Usuário com ID <id> não encontrado' }`. -/
def notFoundBody (userId : Nat) : Body :=
  .err "Not Found" ("Usuário com ID " ++ toString userId ++ " não encontrado")

/-- The 400 body used when an email is already taken. -/
def emailEmUsoBody : Body := .err "Bad Request" "Email já está em uso"

/-- GET `/usuarios`: returns `{ usuarios: usuariosMock, total: length }`
with the implicit 200 status. -/
def getUsuarios (state : List Usuario) : Resp :=
  ⟨200, .list state state.length⟩

/-- POST `/usuarios`: scans for the email with `find`; on a hit replies 400
and leaves the array alone, otherwise pushes `{ id: getNextId(), nome,
email }` and replies 201 with the new user. -/
def postUsuarios (state : List Usuario) (nome email : String) :
    Resp × List Usuario :=
  match state.find? (fun u => u.email == email) with
  | some _ => (⟨400, emailEmUsoBody⟩, state)
  | none =>
      let novoUsuario : Usuario := ⟨getNextId state, nome, email⟩
      (⟨201, .user novoUsuario⟩, state ++ [novoUsuario])

/-- GET `/usuarios/:id`: `find` by id; 404 with the fixed message when
absent, otherwise the user (implicit 200). -/
def getUsuarioById (state : List Usuario) (userId : Nat) : Resp :=
  match state.find? (fun u => u.id == userId) with
  | none => ⟨404, notFoundBody userId⟩
  | some usuario => ⟨200, .user usuario⟩

/-- JS truthiness of an optional string field of the parsed body:
`undefined` and `''` are falsy, every other string is truthy. -/
def truthy : Option String → Bool
  | none => false
  | some s => !(s == "")

/-- The updated record built by the PUT handler:
`{ ...usuario, ...(updates.nome && { nome }), ...(updates.email && { email }) }`.
A falsy field (absent or empty) spreads nothing. -/
def applyUpdates (usuario : Usuario) (nome? email? : Option String) : Usuario :=
  { usuario with
    nome := if truthy nome? then nome?.getD usuario.nome else usuario.nome
    email := if truthy email? then email?.getD usuario.email else usuario.email }

/-- PUT `/usuarios/:id`: `findIndex` by id (404 when absent); when a truthy
email different from the current one is supplied, `find` scans for it and a
hit replies 400 leaving the array alone; otherwise the element at the found
index is replaced by the spread-updated record and returned (implicit 200). -/
def putUsuario (state : List Usuario) (userId : Nat) (nome? email? : Option String) :
    Resp × List Usuario :=
  match state.findIdx? (fun u => u.id == userId) with
  | none => (⟨404, notFoundBody userId⟩, state)
  | some usuarioIndex =>
      let usuario := state.getD usuarioIndex ⟨0, "", ""⟩
      if truthy email? ∧ email?.getD "" ≠ usuario.email then
        if (state.find? (fun u => u.email == email?.getD "")).isSome then
          (⟨400, emailEmUsoBody⟩, state)
        else
          let usuarioAtualizado := applyUpdates usuario nome? email?
          (⟨200, .user usuarioAtualizado⟩, state.set usuarioIndex usuarioAtualizado)
      else
        let usuarioAtualizado := applyUpdates usuario nome? email?
        (⟨200, .user usuarioAtualizado⟩, state.set usuarioIndex usuarioAtualizado)

/-- DELETE `/usuarios/:id`: `findIndex` by id (404 when absent), then
`splice(usuarioIndex, 1)` and a 200 `{ message, id }` reply. -/
def deleteUsuario (state : List Usuario) (userId : Nat) :
    Resp × List Usuario :=
  match state.findIdx? (fun u => u.id == userId) with
  | none => (⟨404, notFoundBody userId⟩, state)
  | some usuarioIndex =>
      (⟨200, .deleted ("Usuário com ID " ++ toString userId ++
          " foi deletado com sucesso") userId⟩,
        state.eraseIdx usuarioIndex)

end Fastify05

namespace Express01

/-- Task record used by `src/express/01/src/routes/taskRoutes.ts`.
`parseInt(req.params.id)` produces an integer (the NaN case of a
non-numeric parameter is outside this model). -/
structure Task where
  id : Int
  title : String
  description : Option String
  status : String
  id_user : Int
deriving Repr, DecidableEq

/-- The hard-coded array in `taskRouter.get('/')`. -/
def mockTasks : List Task :=
  [ ⟨1, "Tarefa 1", some "Descrição da tarefa 1", "pendente", 1⟩,
    ⟨2, "Tarefa 2", some "Descrição da tarefa 2", "concluída", 2⟩,
    ⟨3, "Tarefa 3", some "Descrição da tarefa 3", "em andamento", 1⟩ ]

/-- GET `/api/tasks`: `res.json(tasks)` with the implicit 200 status. -/
def taskGetAll : Nat × List Task := (200, mockTasks)

/-- GET `/api/tasks/:id` (`taskRouter.get('/:id')`): performs no lookup at
all — it fabricates `{ id: taskId, title: 'Tarefa Exemplo', ... }` and
replies with the implicit 200 status for every id. -/
def taskGetById (taskId : Int) : Nat × Task :=
  (200, ⟨taskId, "Tarefa Exemplo", some "Descrição da tarefa", "pendente", 1⟩)

/-- One entry of `ZodError.errors`: a path and a message. -/
structure ZodIssue where
  path : List String
  message : String
deriving Repr, DecidableEq

/-- The join `error.errors.map(e => path.join('.') + ': ' + message).join(', ')` -/
def zodErrorMessage (errors : List ZodIssue) : String :=
  String.intercalate ", "
    (errors.map (fun e => String.intercalate "." e.path ++ ": " ++ e.message))

/-- The 400 JSON `{ error: 'Validation Error', message, timestamp }`
produced by `validateBody` together with its status. -/
structure ValidationErrorResp where
  status : Nat
  error : String
  message : String
  timestamp : String
deriving Repr, DecidableEq

/-- The `validateBody` middleware (identical text in `taskRoutes.ts` and
`conexao_mysql.ts`): `schema.parse` of the raw body either yields the
parsed body handed to the handler, or throws a `ZodError`, answered with
status 400 and the joined field errors; the handler is not reached.
`schema.parse` is modelled as an `Except`-valued function and the
timestamp as a parameter. -/
def validateBody {β γ δ : Type} (parse : β → Except (List ZodIssue) γ)
    (handler : γ → δ) (timestamp : String) (body : β) :
    ValidationErrorResp ⊕ δ :=
  match parse body with
  | .ok parsed => .inr (handler parsed)
  | .error errs => .inl ⟨400, "Validation Error", zodErrorMessage errs, timestamp⟩

/-- A raw request body for `createTaskSchema`, fields present or absent
(primitive JSON types assumed correct). -/
structure RawTaskBody where
  title : Option String
  description : Option String
  status : Option String
  id_user : Option Int
deriving Repr, DecidableEq

/-- The result of a successful `createTaskSchema.parse`. -/
structure ParsedTask where
  title : String
  description : Option String
  status : String
  id_user : Int
deriving Repr, DecidableEq

/-- The issues `createTaskSchema` reports, in shape-key order:
`title: z.string().min(2, 'Título deve ter pelo menos 2 caracteres')`,
`description: z.string().optional()`,
`status: z.string().min(1, 'Status é obrigatório')`,
`id_user: z.number().positive('ID do usuário deve ser um número positivo')`;
a missing required field yields Zod's `Required` message. -/
def createTaskIssues (b : RawTaskBody) : List ZodIssue :=
  (match b.title with
   | none => [⟨["title"], "Required"⟩]
   | some t =>
      if t.length < 2 then [⟨["title"], "Título deve ter pelo menos 2 caracteres"⟩]
      else []) ++
  (match b.status with
   | none => [⟨["status"], "Required"⟩]
   | some s => if s.length < 1 then [⟨["status"], "Status é obrigatório"⟩] else []) ++
  (match b.id_user with
   | none => [⟨["id_user"], "Required"⟩]
   | some n =>
      if n ≤ 0 then [⟨["id_user"], "ID do usuário deve ser um número positivo"⟩]
      else [])

/-- The parse `createTaskSchema.parse`: all issues are collected; with none, the
typed body is returned. -/
def createTaskParse (b : RawTaskBody) : Except (List ZodIssue) ParsedTask :=
  match b.title, b.status, b.id_user, createTaskIssues b with
  | some t, some s, some n, [] => .ok ⟨t, b.description, s, n⟩
  | _, _, _, issues => .error issues

end Express01

namespace ExpressCommon

/-- The JS `Error` reaching the global error middleware; the middleware
only logs it, so only its presence matters. -/
structure JsError where
  message : String
deriving Repr, DecidableEq

/-- The JSON `{ error, message, timestamp }` the two terminal middlewares
produce, together with the status set on the response. -/
structure MwResp where
  status : Nat
  error : String
  message : String
  timestamp : String
deriving Repr, DecidableEq

/-- The global error-handling middleware, with identical text in
`src/unnamed/part_002` and `src/express/01/src/routes/conexao_mysql.ts`:
`res.status(500).json({ error: 'Internal Server Error', message: 'Algo deu
errado no servidor', timestamp })`. -/
def errorMiddleware (_error : JsError) (timestamp : String) : MwResp :=
  ⟨500, "Internal Server Error", "Algo deu errado no servidor", timestamp⟩

/-- The `app.use('*')` not-found middleware of the same two files. -/
def notFoundMiddleware (originalUrl : String) (timestamp : String) : MwResp :=
  ⟨404, "Not Found", "Rota " ++ originalUrl ++ " não encontrada", timestamp⟩

end ExpressCommon

namespace Express01MySQL

/-- One response attempt recorded by a MySQL query callback: the status it
carries and its payload (`res.send`/`res.json` keep the implicit 200). -/
inductive Sent (ρ : Type) where
  | text (status : Nat) (body : String)
  | json (status : Nat) (rows : ρ)
deriving Repr, DecidableEq

/-- GET `/` callback (`conexao_mysql.ts`): `if (err) { res.send(error) }`
has no `return`, so the success `res.send` runs afterwards as well. The
list records every `res.*` call executed, in order. -/
def rootCallback {ρ : Type} (err : Bool) (_results : ρ) : List (Sent ρ) :=
  (if err then [.text 200 "MySQL connection error."] else []) ++
    [.text 200 "MySQL connection OK."]

/-- GET `/user/:id` callback: same unguarded error branch followed by an
unconditional `res.json(results)`. -/
def userByIdCallback {ρ : Type} (err : Bool) (results : ρ) : List (Sent ρ) :=
  (if err then [.text 200 "MySQL connection error."] else []) ++
    [.json 200 results]

/-- GET `/user/:id/tasks/` callback: same unguarded shape. -/
def userTasksCallback {ρ : Type} (err : Bool) (results : ρ) : List (Sent ρ) :=
  (if err then [.text 200 "MySQL connection error."] else []) ++
    [.json 200 results]

/-- GET `/tasks/:id` callback: the guarded shape the other MySQL routes
use — `if (err) { res.status(500).send(...) } else { res.json(results) }`. -/
def taskByIdCallback {ρ : Type} (err : Bool) (results : ρ) : List (Sent ρ) :=
  if err then [.text 500 "MySQL connection error."] else [.json 200 results]

end Express01MySQL

namespace Server03

/-- User record of `src/03/src/server.ts`: `id` is a UUID string,
`createdAt` a date (kept as its ISO string). -/
structure User where
  id : String
  name : String
  email : String
  createdAt : String
deriving Repr, DecidableEq

/-- Body of a DELETE `/users/:id` reply in `src/03`: `204` sends nothing,
`404` sends `{ statusCode, error, message }`. -/
inductive DeleteBody where
  | empty
  | err (statusCode : Nat) (error message : String)
deriving Repr, DecidableEq

/-- DELETE `/users/:id` in `src/03/src/server.ts`: `findIndex` by id, 404
`{ statusCode: 404, error: 'Not Found', message: 'Usuário não encontrado.' }`
when absent, otherwise `splice(userIndex, 1)` and
`reply.status(204).send()`. -/
def deleteUser (users : List User) (id : String) :
    (Nat × DeleteBody) × List User :=
  match users.findIdx? (fun u => u.id == id) with
  | none => ((404, .err 404 "Not Found" "Usuário não encontrado."), users)
  | some userIndex => ((204, .empty), users.eraseIdx userIndex)

end Server03

/-- Every status code explicitly set via `.status(<literal>)` by a route
handler, validation middleware, error middleware or not-found middleware in
the corpus, transcribed file by file (one entry per distinct literal per
file; no other status-setting form occurs in the sources). -/
def corpusExplicitStatuses : List Nat :=
  -- src/03/src/server.ts
  [200, 201, 204, 400, 404, 409, 500] ++
  -- src/express/02/src/server.ts
  [200, 201, 400, 404, 500] ++
  -- src/express/01/src/server.ts
  [200, 201, 400, 404, 500] ++
  -- src/express/01/src/routes/conexao_mysql.ts
  [200, 201, 400, 404, 500] ++
  -- src/express/01/src/routes/taskRoutes.ts
  [201, 400] ++
  -- src/04/src/server-minimal.ts
  [201, 404] ++
  -- src/06/src/server.js
  [200, 201, 400] ++
  -- src/unnamed/part_001
  [201, 404] ++
  -- src/unnamed/part_002
  [404, 500] ++
  -- src/fastify/03/src/server.ts
  [200, 201, 500] ++
  -- src/fastify/05/src/routes.ts
  [201, 400, 404] ++
  -- src/fastify/04/src/server.ts
  [201, 400, 404] ++
  -- src/Swagger/05/src/controllers/HelloWorld.ts
  [200] ++
  -- src/Swagger/01/app.js
  [201]

namespace Fastify05

/-- The email scan of the POST handler hits when some user already holds
the email. -/
theorem find?_email_isSome (s : List Usuario) (email : String) (u : Usuario)
    (hu : u ∈ s) (he : u.email = email) :
    ∃ v, s.find? (fun w => w.email == email) = some v := by
  rw [← Option.isSome_iff_exists]
  exact List.find?_isSome.mpr ⟨u, hu, by simp [he]⟩

/-- C2: when some user of the array already has email `e`, POST `/usuarios`
with body email `e` replies status 400 with the error body
`{ error: 'Bad Request', message: 'Email já está em uso' }` and leaves the
array unchanged (so in particular the status is in {409, 400}). -/
theorem post_duplicate_email_rejected (s : List Usuario) (nome email : String)
    (u : Usuario) (hu : u ∈ s) (he : u.email = email) :
    postUsuarios s nome email = (⟨400, emailEmUsoBody⟩, s) := by
  obtain ⟨v, hv⟩ := find?_email_isSome s email u hu he
  simp [postUsuarios, hv]

theorem post_duplicate_email_rejected_witness :
    postUsuarios usuariosMock "Novo Usuário" "joao@teste.com" =
      (⟨400, emailEmUsoBody⟩, usuariosMock) :=
  post_duplicate_email_rejected usuariosMock "Novo Usuário" "joao@teste.com"
    ⟨1, "João Silva", "joao@teste.com"⟩ (by decide) rfl

/-- C8: `getNextId` returns 1 on the empty array and 1 plus an id attained
in the array otherwise; it is strictly greater than every id present, and
POST therefore keeps the ids pairwise distinct. -/
theorem getNextId_fresh (s : List Usuario) :
    (s = [] → getNextId s = 1) ∧
    (s ≠ [] → ∃ u ∈ s, getNextId s = u.id + 1) ∧
    (∀ u ∈ s, u.id < getNextId s) ∧
    ((s.map (·.id)).Nodup → ∀ nome email,
      ((postUsuarios s nome email).2.map (·.id)).Nodup) := by
  refine ⟨?_, ?_, ?_, ?_⟩
  · intro h; subst h; rfl
  · intro hne
    rcases foldl_max_attained (s.map (·.id)) 0 with h0 | hmem
    · obtain ⟨x, xs, rfl⟩ := List.exists_cons_of_ne_nil hne
      refine ⟨x, List.mem_cons_self x xs, ?_⟩
      have hx : x.id ≤ ((x :: xs).map (·.id)).foldl Nat.max 0 :=
        (le_foldl_max ((x :: xs).map (·.id)) 0).2 x.id (by simp)
      rw [h0] at hx
      have hx0 : x.id = 0 := Nat.le_zero.mp hx
      have hpos : (x :: xs).length > 0 := by simp
      unfold getNextId
      rw [if_pos hpos, h0, hx0]
    · obtain ⟨u, hu, hval⟩ := List.mem_map.mp hmem
      refine ⟨u, hu, ?_⟩
      have hpos : 0 < s.length := List.length_pos.mpr (by
        rintro rfl; simp at hu)
      simp [getNextId, hpos, hval]
  · intro u hu
    have hle := (le_foldl_max (s.map (·.id)) 0).2 u.id
      (List.mem_map_of_mem _ hu)
    have hpos : 0 < s.length := List.length_pos.mpr (by
      rintro rfl; simp at hu)
    simp only [getNextId, gt_iff_lt, hpos, if_true]
    omega
  · intro hnd nome email
    cases hf : s.find? (fun v => v.email == email) with
    | some v => simpa [postUsuarios, hf] using hnd
    | none =>
        simp only [postUsuarios, hf]
        rw [List.map_append, List.nodup_append]
        refine ⟨hnd, by simp, ?_⟩
        intro x hx hx2
        simp only [List.map_cons, List.map_nil, List.mem_singleton] at hx2
        subst hx2
        obtain ⟨u, hu, hid⟩ := List.mem_map.mp hx
        have hle := (le_foldl_max (s.map (·.id)) 0).2 u.id
          (List.mem_map_of_mem _ hu)
        have hpos : 0 < s.length := List.length_pos.mpr (by
          rintro rfl; simp at hu)
        simp only [getNextId, gt_iff_lt, hpos, if_true] at hid
        omega

theorem getNextId_fresh_witness :
    (∃ u ∈ usuariosMock, getNextId usuariosMock = u.id + 1) ∧
    ((postUsuarios usuariosMock "Novo" "novo@exemplo.com").2.map
      (·.id)).Nodup :=
  ⟨(getNextId_fresh usuariosMock).2.1 (by decide),
    (getNextId_fresh usuariosMock).2.2.2 (by decide) "Novo" "novo@exemplo.com"⟩

/-- C9: DELETE `/usuarios/:id` with no matching user replies 404 and leaves
the array untouched; with a match it removes exactly the first matching
user, keeping every other user and their relative order and shrinking the
length by one. -/
theorem delete_frame_effect (s : List Usuario) (userId : Nat) :
    ((∀ u ∈ s, u.id ≠ userId) →
      deleteUsuario s userId = (⟨404, notFoundBody userId⟩, s)) ∧
    ((∃ u ∈ s, u.id = userId) →
      ∃ pre a post, s = pre ++ a :: post ∧ a.id = userId ∧
        (∀ b ∈ pre, b.id ≠ userId) ∧
        deleteUsuario s userId =
          (⟨200, .deleted ("Usuário com ID " ++ toString userId ++
              " foi deletado com sucesso") userId⟩, pre ++ post) ∧
        (pre ++ post).length + 1 = s.length) := by
  rcases findIdx?_decomp (fun u => u.id == userId) s with ⟨hnone, hall⟩ |
    ⟨pre, a, post, hs, hpa, hpre, hidx⟩
  · refine ⟨fun _ => by simp [deleteUsuario, hnone], ?_⟩
    rintro ⟨u, hu, hid⟩
    exact absurd hid (by simpa using hall u hu)
  · subst hs
    refine ⟨?_, ?_⟩
    · intro hnone'
      exact absurd (by simpa using hpa) (hnone' a (by simp))
    · intro _
      refine ⟨pre, a, post, rfl, by simpa using hpa, ?_, ?_, ?_⟩
      · intro b hb
        simpa using hpre b hb
      · simp [deleteUsuario, hidx, eraseIdx_append_middle]
      · simp [List.length_append]
        omega

theorem delete_frame_effect_witness :
    ∃ pre a post, usuariosMock = pre ++ a :: post ∧ a.id = 3 ∧
      (∀ b ∈ pre, b.id ≠ 3) ∧
      deleteUsuario usuariosMock 3 =
        (⟨200, .deleted ("Usuário com ID " ++ toString 3 ++
            " foi deletado com sucesso") 3⟩, pre ++ post) ∧
      (pre ++ post).length + 1 = usuariosMock.length :=
  (delete_frame_effect usuariosMock 3).2
    ⟨⟨3, "Pedro Oliveira", "pedro@exemplo.com"⟩, by decide, rfl⟩

end Fastify05

/-- The `getElem` form of indexing `pre ++ a :: post` at `pre.length`. -/
theorem getElem_append_middle {α : Type _} (pre : List α) (a : α) (post : List α)
    (h : pre.length < (pre ++ a :: post).length) :
    (pre ++ a :: post)[pre.length] = a := by
  rw [List.getElem_append_right (le_refl _)]
  simp

namespace Fastify05

/-- The function `applyUpdates` never touches the id. -/
theorem applyUpdates_id (a : Usuario) (nome? email? : Option String) :
    (applyUpdates a nome? email?).id = a.id := rfl

/-- The nome written by the spread: the supplied value when truthy, the
old one otherwise. -/
theorem applyUpdates_nome (a : Usuario) (nome? email? : Option String) :
    (applyUpdates a nome? email?).nome =
      if truthy nome? then nome?.getD "" else a.nome := by
  cases nome? with
  | none => simp [applyUpdates, truthy]
  | some n =>
      by_cases hn : n = "" <;> simp [applyUpdates, truthy, hn]

/-- The email written by the spread: the supplied value when truthy, the
old one otherwise. -/
theorem applyUpdates_email (a : Usuario) (nome? email? : Option String) :
    (applyUpdates a nome? email?).email =
      if truthy email? then email?.getD "" else a.email := by
  cases email? with
  | none => simp [applyUpdates, truthy]
  | some e =>
      by_cases he : e = "" <;> simp [applyUpdates, truthy, he]

/-- Case analysis of PUT `/usuarios/:id`: 404 leaving the array alone, 400
leaving it alone, or replacement of the first id match by the
spread-updated record (in which case a genuinely new email was scanned and
is absent from the whole array). -/
theorem putUsuario_cases (s : List Usuario) (userId : Nat)
    (nome? email? : Option String) :
    (putUsuario s userId nome? email? = (⟨404, notFoundBody userId⟩, s) ∧
      ∀ u ∈ s, u.id ≠ userId) ∨
    (putUsuario s userId nome? email? = (⟨400, emailEmUsoBody⟩, s)) ∨
    (∃ pre a post, s = pre ++ a :: post ∧ a.id = userId ∧
      (∀ b ∈ pre, b.id ≠ userId) ∧
      putUsuario s userId nome? email? =
        (⟨200, .user (applyUpdates a nome? email?)⟩,
          pre ++ applyUpdates a nome? email? :: post) ∧
      (truthy email? = true → email?.getD "" ≠ a.email →
        ∀ u ∈ s, u.email ≠ email?.getD "")) := by
  rcases findIdx?_decomp (fun u => u.id == userId) s with ⟨hnone, hall⟩ |
    ⟨pre, a, post, hs, hpa, hpre, hidx⟩
  · left
    refine ⟨by simp [putUsuario, hnone], ?_⟩
    intro u hu
    simpa using hall u hu
  · subst hs
    have hgetD : (pre ++ a :: post).getD pre.length (⟨0, "", ""⟩ : Usuario) = a :=
      getD_append_middle pre a post _
    by_cases hcond : truthy email? = true ∧ email?.getD "" ≠ a.email
    · cases hfind : (pre ++ a :: post).find?
        (fun u => u.email == email?.getD "") with
      | some v =>
          right; left
          simp [putUsuario, hidx, hgetD, hcond.1, hcond.2, hfind,
            getElem_append_middle]
      | none =>
          right; right
          refine ⟨pre, a, post, rfl, by simpa using hpa, ?_, ?_, ?_⟩
          · intro b hb
            simpa using hpre b hb
          · simp [putUsuario, hidx, hgetD, hcond.1, hcond.2, hfind,
              set_append_middle, getElem_append_middle]
          · intro _ _ u hu
            have := List.find?_eq_none.mp hfind u hu
            simpa using this
    · right; right
      refine ⟨pre, a, post, rfl, by simpa using hpa, ?_, ?_, ?_⟩
      · intro b hb
        simpa using hpre b hb
      · simp only [putUsuario, hidx, hgetD]
        rw [if_neg hcond]
        rw [set_append_middle]
      · intro ht hne
        exact absurd ⟨ht, hne⟩ hcond

end Fastify05

/-- Replacing the middle element keeps a `Nodup` list `Nodup` when the new
value occurs nowhere else. -/
theorem nodup_replace_middle {α : Type _} (pre post : List α) (x y : α)
    (h : (pre ++ x :: post).Nodup) (hy1 : y ∉ pre) (hy2 : y ∉ post) :
    (pre ++ y :: post).Nodup := by
  rw [List.nodup_middle, List.nodup_cons] at h ⊢
  exact ⟨by simp [hy1, hy2], h.2⟩

namespace Fastify05

/-- C1: email uniqueness is an invariant of the users array: if the emails
are pairwise distinct, they stay pairwise distinct after any POST
`/usuarios` and after any PUT `/usuarios/:id`, successful or rejected. -/
theorem email_uniqueness_invariant (s : List Usuario) (nome email : String)
    (userId : Nat) (nome? email? : Option String)
    (hnd : (s.map (·.email)).Nodup) :
    ((postUsuarios s nome email).2.map (·.email)).Nodup ∧
    ((putUsuario s userId nome? email?).2.map (·.email)).Nodup := by
  constructor
  · cases hf : s.find? (fun u => u.email == email) with
    | some v => simpa [postUsuarios, hf] using hnd
    | none =>
        simp only [postUsuarios, hf]
        rw [List.map_append, List.nodup_append]
        refine ⟨hnd, by simp, ?_⟩
        intro x hx hx2
        simp only [List.map_cons, List.map_nil, List.mem_singleton] at hx2
        subst hx2
        obtain ⟨u, hu, hue⟩ := List.mem_map.mp hx
        have := List.find?_eq_none.mp hf u hu
        simp [hue] at this
  · rcases putUsuario_cases s userId nome? email? with
      ⟨heq, _⟩ | heq | ⟨pre, a, post, hs, _, _, heq, hfresh⟩
    · rw [heq]; exact hnd
    · rw [heq]; exact hnd
    · rw [heq]
      subst hs
      rw [List.map_append, List.map_cons]
      rw [List.map_append, List.map_cons] at hnd
      by_cases ht : truthy email? = true
      · by_cases hne : email?.getD "" ≠ a.email
        · have hfresh' := hfresh ht hne
          rw [applyUpdates_email, if_pos ht]
          refine nodup_replace_middle _ _ _ _ hnd ?_ ?_
          · intro hmem
            obtain ⟨u, hu, hue⟩ := List.mem_map.mp hmem
            exact hfresh' u (by simp [hu]) hue
          · intro hmem
            obtain ⟨u, hu, hue⟩ := List.mem_map.mp hmem
            exact hfresh' u (by simp [hu]) hue
        · have heq' : email?.getD "" = a.email := not_ne_iff.mp hne
          rw [applyUpdates_email, if_pos ht, heq']
          exact hnd
      · rw [applyUpdates_email, if_neg ht]
        exact hnd

theorem email_uniqueness_invariant_witness :
    ((postUsuarios usuariosMock "Novo" "novo@exemplo.com").2.map
      (·.email)).Nodup ∧
    ((putUsuario usuariosMock 1 (some "Outro Nome")
      (some "outro@exemplo.com")).2.map (·.email)).Nodup :=
  email_uniqueness_invariant usuariosMock "Novo" "novo@exemplo.com" 1
    (some "Outro Nome") (some "outro@exemplo.com") (by decide)

/-- C5: last write wins on the in-memory array: when a PUT `/usuarios/:id`
succeeds (status 200), it acted on the first user matching the id, replied
with the spread-updated record (supplied truthy fields overwrite, the rest
keep their prior values), and a subsequent GET `/usuarios/:id` on the new
state replies 200 with exactly that record. -/
theorem put_then_get_lastWriteWins (s : List Usuario) (userId : Nat)
    (nome? email? : Option String)
    (h200 : (putUsuario s userId nome? email?).1.status = 200) :
    ∃ old, s.find? (fun u => u.id == userId) = some old ∧
      (putUsuario s userId nome? email?).1 =
        ⟨200, .user (applyUpdates old nome? email?)⟩ ∧
      (applyUpdates old nome? email?).id = old.id ∧
      (applyUpdates old nome? email?).nome =
        (if truthy nome? then nome?.getD "" else old.nome) ∧
      (applyUpdates old nome? email?).email =
        (if truthy email? then email?.getD "" else old.email) ∧
      getUsuarioById (putUsuario s userId nome? email?).2 userId =
        ⟨200, .user (applyUpdates old nome? email?)⟩ := by
  rcases putUsuario_cases s userId nome? email? with
    ⟨heq, _⟩ | heq | ⟨pre, a, post, hs, hpa, hpre, heq, _⟩
  · rw [heq] at h200; simp at h200
  · rw [heq] at h200; simp at h200
  · subst hs
    refine ⟨a, ?_, ?_, applyUpdates_id a nome? email?,
      applyUpdates_nome a nome? email?, applyUpdates_email a nome? email?, ?_⟩
    · exact find?_append_middle _ pre a post
        (fun b hb => by simpa using hpre b hb) (by simp [hpa])
    · rw [heq]
    · rw [heq]
      simp only [getUsuarioById]
      rw [find?_append_middle _ pre (applyUpdates a nome? email?) post
        (fun b hb => by simpa using hpre b hb)
        (by simp [applyUpdates_id, hpa])]

end Fastify05

theorem put_then_get_lastWriteWins_witness :
    ∃ old, Fastify05.usuariosMock.find? (fun u => u.id == 2) = some old ∧
      (Fastify05.putUsuario Fastify05.usuariosMock 2 (some "Maria Atualizada")
          (some "maria.nova@teste.com")).1 =
        ⟨200, .user (Fastify05.applyUpdates old (some "Maria Atualizada")
          (some "maria.nova@teste.com"))⟩ ∧
      (Fastify05.applyUpdates old (some "Maria Atualizada")
          (some "maria.nova@teste.com")).id = old.id ∧
      (Fastify05.applyUpdates old (some "Maria Atualizada")
          (some "maria.nova@teste.com")).nome =
        (if Fastify05.truthy (some "Maria Atualizada") then
          (some "Maria Atualizada").getD "" else old.nome) ∧
      (Fastify05.applyUpdates old (some "Maria Atualizada")
          (some "maria.nova@teste.com")).email =
        (if Fastify05.truthy (some "maria.nova@teste.com") then
          (some "maria.nova@teste.com").getD "" else old.email) ∧
      Fastify05.getUsuarioById
        (Fastify05.putUsuario Fastify05.usuariosMock 2 (some "Maria Atualizada")
          (some "maria.nova@teste.com")).2 2 =
        ⟨200, .user (Fastify05.applyUpdates old (some "Maria Atualizada")
          (some "maria.nova@teste.com"))⟩ :=
  Fastify05.put_then_get_lastWriteWins Fastify05.usuariosMock 2
    (some "Maria Atualizada") (some "maria.nova@teste.com") (by decide)

/-- C3 counterexample: the express by-id task lookup
(`taskRouter.get('/:id')`) replies 200 — never 404 — although no task with
id 999 exists in the corpus's task mock data. -/
theorem taskGetById_never_404 :
    (∀ t ∈ Express01.mockTasks, t.id ≠ 999) ∧
    (Express01.taskGetById 999).1 = 200 ∧
    ¬((Express01.taskGetById 999).1 = 404) := by decide

/-- C3 (amended): the fastify GET `/usuarios/:id` replies 404 with the
fixed `{ error, message }` shape when the id is absent and 200 with the
first matching user when present; the express task by-id route performs no
lookup and replies 200 for every id. -/
theorem byId_lookup_contract (s : List Fastify05.Usuario) (userId : Nat) :
    ((∀ u ∈ s, u.id ≠ userId) →
      Fastify05.getUsuarioById s userId =
        ⟨404, Fastify05.notFoundBody userId⟩) ∧
    (∀ u, s.find? (fun x => x.id == userId) = some u →
      Fastify05.getUsuarioById s userId = ⟨200, .user u⟩) ∧
    (∀ taskId : Int, (Express01.taskGetById taskId).1 = 200) := by
  refine ⟨?_, ?_, fun _ => rfl⟩
  · intro hall
    have hn : s.find? (fun u => u.id == userId) = none :=
      List.find?_eq_none.mpr (fun x hx => by simpa using hall x hx)
    simp [Fastify05.getUsuarioById, hn]
  · intro u hu
    simp [Fastify05.getUsuarioById, hu]

theorem byId_lookup_contract_witness :
    Fastify05.getUsuarioById Fastify05.usuariosMock 99 =
      ⟨404, Fastify05.notFoundBody 99⟩ ∧
    (Express01.taskGetById 7).1 = 200 :=
  ⟨(byId_lookup_contract Fastify05.usuariosMock 99).1 (by decide),
    (byId_lookup_contract Fastify05.usuariosMock 99).2.2 7⟩

namespace Express01

/-- C4: when the body fails the route's Zod schema parse, `validateBody`
replies status 400 with the message joining the per-field errors as
`path: message` pairs, and the handler is never consulted; when the body
parses, the handler runs on the parsed body. -/
theorem validateBody_contract {β γ δ : Type}
    (parse : β → Except (List ZodIssue) γ) (handler handlerB : γ → δ)
    (ts : String) (body : β) :
    (∀ issues, parse body = .error issues →
      validateBody parse handler ts body =
        .inl ⟨400, "Validation Error", zodErrorMessage issues, ts⟩ ∧
      validateBody parse handler ts body =
        validateBody parse handlerB ts body) ∧
    (∀ parsed, parse body = .ok parsed →
      validateBody parse handler ts body = .inr (handler parsed)) := by
  constructor
  · intro issues hi
    constructor <;> simp [validateBody, hi]
  · intro parsed hp
    simp [validateBody, hp]

end Express01

theorem validateBody_contract_witness :
    (Express01.validateBody Express01.createTaskParse
        (fun p => p.title) "2024-01-01T00:00:00.000Z"
        (⟨some "a", none, some "", some (-1)⟩ : Express01.RawTaskBody) =
      .inl ⟨400, "Validation Error",
        "title: Título deve ter pelo menos 2 caracteres, status: Status é obrigatório, id_user: ID do usuário deve ser um número positivo",
        "2024-01-01T00:00:00.000Z"⟩) ∧
    (Express01.validateBody Express01.createTaskParse
        (fun p => p.title) "2024-01-01T00:00:00.000Z"
        (⟨some "Tarefa", none, some "pendente", some 1⟩ :
          Express01.RawTaskBody) =
      .inr "Tarefa") :=
  ⟨((Express01.validateBody_contract Express01.createTaskParse
      (fun p => p.title) (fun p => p.status) "2024-01-01T00:00:00.000Z"
      ⟨some "a", none, some "", some (-1)⟩).1 _ rfl).1,
    (Express01.validateBody_contract Express01.createTaskParse
      (fun p => p.title) (fun p => p.status) "2024-01-01T00:00:00.000Z"
      ⟨some "Tarefa", none, some "pendente", some 1⟩).2 _ rfl⟩

namespace ExpressCommon

/-- C6: every error reaching the global Express error middleware gets
status 500 with the fixed body
`{ error: 'Internal Server Error', message: 'Algo deu errado no servidor',
timestamp }`, independent of the particular error value. -/
theorem errorMiddleware_generic_500 (e : JsError) (ts : String) :
    errorMiddleware e ts =
      ⟨500, "Internal Server Error", "Algo deu errado no servidor", ts⟩ ∧
    ∀ eB : JsError, errorMiddleware e ts = errorMiddleware eB ts :=
  ⟨rfl, fun _ => rfl⟩

end ExpressCommon

/-- C7 counterexample: the DELETE `/users/:id` handler of
`src/03/src/server.ts` explicitly sets status 204 on success, and 204 is
not in the claimed set {200, 201, 400, 404, 409, 500}. -/
theorem delete_status_204_counterexample :
    (Server03.deleteUser
        [⟨"2b1f4c3a-0000-4000-8000-000000000001", "Ana", "ana@exemplo.com",
          "2024-01-01T00:00:00.000Z"⟩]
        "2b1f4c3a-0000-4000-8000-000000000001").1.1 = 204 ∧
    (204 : Nat) ∈ corpusExplicitStatuses ∧
    ¬((204 : Nat) ∈ [200, 201, 400, 404, 409, 500]) := by decide

/-- C7 (amended): every status code explicitly set by a route handler,
validation middleware, error middleware or not-found middleware in the
corpus lies in {200, 201, 204, 400, 404, 409, 500}. -/
theorem corpusStatuses_conventional :
    ∀ c ∈ corpusExplicitStatuses, c ∈ [200, 201, 204, 400, 404, 409, 500] := by
  decide

theorem corpusStatuses_conventional_witness :
    (204 : Nat) ∈ [200, 201, 204, 400, 404, 409, 500] :=
  corpusStatuses_conventional 204 (by decide)

namespace Express01MySQL

/-- C10: the callbacks of GET `/`, GET `/user/:id` and GET
`/user/:id/tasks/` execute their success response on every run — the error
branch does not return — so when `err` is set they attempt two responses
(error text first, success second), while the guarded GET `/tasks/:id`
callback sends exactly one. -/
theorem unguarded_double_send {ρ : Type} (err : Bool) (results : ρ) :
    (Sent.text 200 "MySQL connection OK." ∈ rootCallback err results) ∧
    (Sent.json 200 results ∈ userByIdCallback err results) ∧
    (Sent.json 200 results ∈ userTasksCallback err results) ∧
    (err = true →
      (rootCallback err results).length = 2 ∧
      (userByIdCallback err results).length = 2 ∧
      (userTasksCallback err results).length = 2 ∧
      (taskByIdCallback err results).length = 1 ∧
      (rootCallback err results).head? =
        some (.text 200 "MySQL connection error.")) := by
  cases err <;>
    simp [rootCallback, userByIdCallback, userTasksCallback, taskByIdCallback]

end Express01MySQL

theorem unguarded_double_send_witness :
    (Express01MySQL.rootCallback true ()).length = 2 ∧
    (Express01MySQL.userByIdCallback true ()).length = 2 ∧
    (Express01MySQL.userTasksCallback true ()).length = 2 ∧
    (Express01MySQL.taskByIdCallback true ()).length = 1 ∧
    (Express01MySQL.rootCallback true ()).head? =
      some (.text 200 "MySQL connection error.") :=
  (Express01MySQL.unguarded_double_send true ()).2.2.2 rfl
